import Mathlib

/-!
Verification development for the neoai Agent-Editor Bridge.

The definitions below are a shallow embedding of the TypeScript sources:
  - src/src/types/nvim.ts, src/unnamed/part_012 (types/acp.ts): the data model;
  - src/src/hooks/useAcpAgent.ts: agent lifecycle, permission queue, prompt submission;
  - src/unnamed/part_015 (useNvimBridge.ts): connection state and health probing;
  - src/unnamed/part_016 (useAiChat.ts): the chat/exchange handlers;
  - src/unnamed/part_006 (AiChat.tsx): the connect retry loop with attempt tokens.

Asynchronous backend calls (Tauri invoke) are modelled by explicit outcome
parameters; React state is modelled by explicit state records, with each
handler a pure state transformer.
-/

namespace NeoAI

/-! ## Data model (types/nvim.ts, types/acp.ts) -/

structure CursorPosition where
  line : Nat
  col : Nat
deriving DecidableEq, Repr

structure NvimContext where
  cursor : CursorPosition
  filePath : String
  fileType : String
  bufferId : Nat
  lineCount : Nat
  modified : Bool
  visibleLines : List String
  visibleRange : Nat × Nat
deriving DecidableEq, Repr

structure Diagnostic where
  line : Nat
  col : Nat
  severity : Nat
  message : String
  source : String
deriving DecidableEq, Repr

structure BufferEdit where
  startLine : Nat
  endLine : Nat
  newLines : List String
  filePath : Option String := none
  targetLine : Option Nat := none
deriving DecidableEq, Repr

inductive ConnectionStatus
  | connected
  | disconnected
  | error
deriving DecidableEq, Repr

inductive KeymapStatus
  | unknown
  | present
  | missing
  | error
deriving DecidableEq, Repr

structure NvimHealth where
  connected : Bool
  channelId : Option Nat
  keymapsInjected : Bool
  socketPath : Option String
  lastError : Option String
deriving DecidableEq, Repr

inductive AcpInstallPhase
  | resolving
  | downloading
  | verifying
  | extracting
  | installing
  | starting
  | done
  | error
deriving DecidableEq, Repr

structure AcpInstallStatus where
  phase : AcpInstallPhase
  message : String
  version : Option String := none
deriving DecidableEq, Repr

structure AcpPermissionOption where
  optionId : String
  name : String
  kind : String
deriving DecidableEq, Repr

structure AcpPermissionRequest where
  requestId : String
  sessionId : String
  terminalId : Option String
  toolCallId : String
  title : Option String
  kind : Option String
  options : List AcpPermissionOption
deriving DecidableEq, Repr

inductive AgentStatus
  | stopped
  | starting
  | running
  | error (message : String)
deriving DecidableEq, Repr

/-! ## Agent process manager state (useAcpAgent.ts)

The hook owns four pieces of local state: status, installState, sessionId and
the permission queue. -/

structure AcpState where
  status : AgentStatus
  installState : Option AcpInstallStatus
  sessionId : Option String
  permissionQueue : List AcpPermissionRequest
deriving DecidableEq, Repr

/-- The acp-permission-request listener in useAcpAgent.ts appends the incoming
request at the tail of the queue:
setPermissionQueue((prev) => [...prev, event.payload]). -/
def enqueuePermission (queue : List AcpPermissionRequest) (req : AcpPermissionRequest) :
    List AcpPermissionRequest :=
  queue ++ [req]

/-- currentPermission in useAcpAgent.ts is permissionQueue[0] ?? null. -/
def currentPermission (queue : List AcpPermissionRequest) : Option AcpPermissionRequest :=
  queue.head?

/-- What acp_respond_permission_request receives: the requestId and
optionId ?? null (none models the null sent for an undefined optionId). -/
structure PermissionResponsePayload where
  requestId : String
  optionId : Option String
deriving DecidableEq, Repr

/-- respondPermission from useAcpAgent.ts: first awaits the backend invoke with
the payload (optionId ?? null, so an undefined optionId forwards a cancel, not
an allow), then removes every queue entry whose requestId matches:
setPermissionQueue((prev) => prev.filter((req) => req.requestId !== requestId)).
The payload is returned alongside the new queue; in the source the invoke
happens before the removal. -/
def respondPermission (queue : List AcpPermissionRequest) (requestId : String)
    (optionId : Option String) :
    PermissionResponsePayload × List AcpPermissionRequest :=
  ({ requestId := requestId, optionId := optionId },
   queue.filter (fun req => req.requestId ≠ requestId))

/-- stopAgent from useAcpAgent.ts. The body awaits invoke("acp_stop_agent") and
only then resets status, installState, sessionId and the permission queue; all
four setter calls sit inside the try block after the await, so when the invoke
rejects the catch block only logs the error and no local state changes.
stopSucceeds models whether the backend invoke resolves. -/
def stopAgent (stopSucceeds : Bool) (s : AcpState) : AcpState :=
  if stopSucceeds then
    { s with status := .stopped, installState := none, sessionId := none,
             permissionQueue := [] }
  else
    s

/-- startAgent from useAcpAgent.ts. There is no guard on the current status:
the body unconditionally sets status Starting, clears the permission queue,
sets a starting-phase install state, and awaits invoke("acp_start_agent").
On success it sets Running and clears install state; in the catch it sets
Error(message) and keeps the install state only when its phase is error.
invokeError is none when the backend invoke resolves, some message when it
rejects. The Bool result records that the backend start invoke was initiated
(always true: no early return exists). -/
def startAgent (invokeError : Option String) (s : AcpState) : AcpState × Bool :=
  let s1 : AcpState :=
    { s with status := .starting, permissionQueue := [],
             installState := some { phase := .starting, message := "Starting AI agent..." } }
  match invokeError with
  | none => ({ s1 with status := .running, installState := none }, true)
  | some e =>
      ({ s1 with status := .error e,
                 installState :=
                   match s1.installState with
                   | some st => if st.phase = .error then some st else none
                   | none => none }, true)

/-- The caller-side guard in ensureAgentSession (AiChat.tsx, src/unnamed/part_006):
when acp.status is not Running it first returns early if the status is Starting
and only otherwise calls acp.startAgent(). Returns whether startAgent is called. -/
def ensureAgentSessionStartsAgent (status : AgentStatus) : Bool :=
  match status with
  | .running => false
  | .starting => false
  | _ => true

/-! ## Connection supervisor state (useNvimBridge.ts, src/unnamed/part_015) -/

structure NvimState where
  status : ConnectionStatus
  context : Option NvimContext
  diagnostics : List Diagnostic
  health : Option NvimHealth
  keymapStatus : KeymapStatus
  lastError : Option String
deriving DecidableEq, Repr

/-- applyHealthSnapshot from useNvimBridge.ts: stores the snapshot; when it
reports connected=false, sets status Disconnected, keymap status unknown,
clears context and diagnostics and records snapshot.lastError; when connected,
sets status Connected, derives keymap status from keymapsInjected and clears
lastError. -/
def applyHealthSnapshot (snapshot : NvimHealth) (s : NvimState) : NvimState :=
  if snapshot.connected then
    { s with health := some snapshot, status := .connected,
             keymapStatus := if snapshot.keymapsInjected then .present else .missing,
             lastError := none }
  else
    { s with health := some snapshot, status := .disconnected,
             keymapStatus := .unknown, context := none, diagnostics := [],
             lastError := snapshot.lastError }

/-- Outcome of the nvim_probe_health backend invoke. -/
inductive ProbeOutcome
  | ok (snapshot : NvimHealth)
  | fail (err : String)
deriving DecidableEq, Repr

/-- probeHealth from useNvimBridge.ts: returns null with no terminal; on a
successful invoke applies the snapshot and returns it; when the invoke rejects
(transport failure) it sets status Error, clears the stored health snapshot,
sets keymap status error and records the error message - and touches nothing
else (in particular neither setContext nor setDiagnostics is called on this
path). -/
def probeHealth (hasTerminal : Bool) (outcome : ProbeOutcome) (s : NvimState) :
    NvimState × Option NvimHealth :=
  if hasTerminal then
    match outcome with
    | .ok snapshot => (applyHealthSnapshot snapshot s, some snapshot)
    | .fail e =>
        ({ s with status := .error, health := none, keymapStatus := .error,
                  lastError := some e }, none)
  else
    (s, none)

/-! ## Chat transcript model (types/ai-chat.ts, src/unnamed/part_011; handlers
from useAiChat.ts, src/unnamed/part_016) -/

inductive Role
  | user
  | assistant
  | system
deriving DecidableEq, Repr

inductive SystemKind
  | actionSummary
  | statusNote
deriving DecidableEq, Repr

inductive EditStatus
  | pending
  | applied
  | rejected
deriving DecidableEq, Repr

structure ChatMessage where
  id : String
  role : Role
  content : String
  timestamp : Nat
  systemKind : Option SystemKind := none
  context : Option NvimContext := none
  diagnostics : Option (List Diagnostic) := none
  proposedEdits : Option (List BufferEdit) := none
  editStatus : Option EditStatus := none
deriving DecidableEq, Repr

/-- applyProposedEdits from useAiChat.ts: looks the message up by id; when it
is absent or carries no proposedEdits, returns without doing anything;
otherwise awaits nvim.applyEdits (success modelled by applySucceeds) and on
success maps the transcript, setting that message editStatus applied; in the
catch it only traces and logs. No check of the current editStatus appears
anywhere in the body. The Bool result records whether nvim.applyEdits was
invoked. -/
def applyProposedEdits (applySucceeds : Bool) (messages : List ChatMessage)
    (messageId : String) : List ChatMessage × Bool :=
  match messages.find? (fun m => m.id = messageId) with
  | none => (messages, false)
  | some msg =>
    match msg.proposedEdits with
    | none => (messages, false)
    | some _ =>
      if applySucceeds then
        (messages.map (fun m =>
          if m.id = messageId then { m with editStatus := some .applied } else m), true)
      else
        (messages, true)

/-- rejectProposedEdits from useAiChat.ts: unconditionally maps the
transcript, setting editStatus rejected on the message with the given id;
there is no guard on the current editStatus. -/
def rejectProposedEdits (messages : List ChatMessage) (messageId : String) :
    List ChatMessage :=
  messages.map (fun m =>
    if m.id = messageId then { m with editStatus := some .rejected } else m)

/-- The lookup in the done branch of the acp.onEvent handler:
[...prev].reverse().find((m) => m.role === "assistant" && m.proposedEdits) -
the most recent assistant message carrying proposedEdits, with no condition on
its editStatus. -/
def findLastAssistantWithEdits (messages : List ChatMessage) : Option ChatMessage :=
  messages.reverse.find? (fun m => decide (m.role = Role.assistant) && m.proposedEdits.isSome)

/-- The per-terminal chat state touched by the streaming event handlers in
useAiChat.ts: the transcript, the isStreaming flag, the action-triggered ref,
the current assistant target ref, and the trace stages recorded so far. -/
structure ChatState where
  messages : List ChatMessage
  isStreaming : Bool
  actionTriggered : Bool
  currentAssistantId : Option String
  traceStages : List String
deriving DecidableEq, Repr

/-- The done branch of the acp.onEvent handler in useAiChat.ts: traces
agent.done, stops streaming, reads and clears the action-triggered flag,
clears the current assistant target; then, when the exchange was
action-triggered and auto-apply is on, finds the most recent assistant message
with proposedEdits and - whenever its editStatus is not applied - invokes
nvim.applyEdits on it, marking it applied and tracing success when the apply
resolves, or only tracing the error when it rejects. autoApply models
autoApplyRef.current, applySucceeds the outcome of nvim.applyEdits. The Nat
result counts nvim.applyEdits invocations. -/
def handleDone (autoApply applySucceeds : Bool) (s : ChatState) : ChatState × Nat :=
  let s1 : ChatState :=
    { s with isStreaming := false,
             traceStages := s.traceStages ++ ["agent.done"],
             actionTriggered := false,
             currentAssistantId := none }
  if s.actionTriggered && autoApply then
    match findLastAssistantWithEdits s1.messages with
    | some lastAssistant =>
      if lastAssistant.proposedEdits.isSome
          ∧ lastAssistant.editStatus ≠ some EditStatus.applied then
        if applySucceeds then
          ({ s1 with
               messages := s1.messages.map (fun m =>
                 if m.id = lastAssistant.id then { m with editStatus := some .applied }
                 else m),
               traceStages := s1.traceStages ++ ["edits.autoApply.success"] }, 1)
        else
          ({ s1 with traceStages := s1.traceStages ++ ["edits.autoApply.error"] }, 1)
      else (s1, 0)
    | none => (s1, 0)
  else (s1, 0)

/-! ## Prompt submission (sendMessage in useAiChat.ts, sendPrompt in
useAcpAgent.ts) -/

/-- severityLabel from useAiChat.ts: 1/2/3/4 map to ERROR/WARN/INFO/HINT and
everything else to UNKNOWN. -/
def severityLabel (severity : Nat) : String :=
  if severity = 1 then "ERROR"
  else if severity = 2 then "WARN"
  else if severity = 3 then "INFO"
  else if severity = 4 then "HINT"
  else "UNKNOWN"

/-- One diagnostics line of the context string in sendMessage:
two leading spaces, one-based line, bracketed severity label, message, and the
source in parentheses when it is non-empty (the TS template guards on the
truthiness of d.source, so an empty source is omitted). -/
def formatDiagnostic (d : Diagnostic) : String :=
  "  Line " ++ toString (d.line + 1) ++ ": [" ++ severityLabel d.severity ++ "] "
    ++ d.message ++ (if d.source = "" then "" else " (" ++ d.source ++ ")")

/-- The context string assembled in sendMessage when nvim.context is non-null:
file path and type, cursor position, the visible buffer window with its line
range in a fenced block, and, when diagnostics exist, a Diagnostics section of
formatted lines; all joined with newlines. -/
def buildContextString (ctx : NvimContext) (diagnostics : List Diagnostic) : String :=
  let parts : List String :=
    ["File: " ++ ctx.filePath ++ " (" ++ ctx.fileType ++ ")",
     "Cursor: line " ++ toString ctx.cursor.line ++ ", col " ++ toString ctx.cursor.col,
     "Buffer lines " ++ toString ctx.visibleRange.1 ++ "-" ++ toString ctx.visibleRange.2
       ++ ":",
     "```"] ++ ctx.visibleLines ++ ["```"]
  let parts :=
    if diagnostics.length > 0 then
      parts ++ ["\nDiagnostics:"] ++ diagnostics.map formatDiagnostic
    else parts
  String.intercalate "\n" parts

/-- The body of invoke("acp_send_prompt", { sessionId, blocks }) in
useAcpAgent.ts: the payload carries exactly a sessionId and the prompt blocks;
no context field exists. -/
structure AcpSendPromptPayload where
  sessionId : String
  blocks : List String
deriving DecidableEq, Repr

/-- sendPrompt from useAcpAgent.ts: its declared parameter list is
(blocks: AcpPromptBlock[]) - a single parameter. It throws
"No active session" without a sessionId, and otherwise invokes
acp_send_prompt with only the sessionId and the blocks. -/
def sendPrompt (sessionId : Option String) (blocks : List String) :
    Except String AcpSendPromptPayload :=
  match sessionId with
  | none => Except.error "No active session"
  | some sid => Except.ok { sessionId := sid, blocks := blocks }

/-- The call site acp.sendPrompt([content], contextStr) in useAiChat.ts
sendMessage: JavaScript passes the assembled context string as a second
argument, but sendPrompt declares only the blocks parameter, so the extra
argument is dropped at the call boundary and never reaches the backend
payload. -/
def sendPromptCall (sessionId : Option String) (blocks : List String)
    (_contextStr : Option String) : Except String AcpSendPromptPayload :=
  sendPrompt sessionId blocks

/-- The pieces of surrounding state sendMessage reads: nvim.context,
nvim.diagnostics, the acp sessionId used by sendPrompt, and the fresh ids and
timestamp produced for the two appended messages. -/
structure SendEnv where
  nvimContext : Option NvimContext
  nvimDiagnostics : List Diagnostic
  sessionId : Option String
  userMsgId : String
  assistantMsgId : String
  now : Nat
deriving DecidableEq, Repr

/-- The chat state sendMessage touches. -/
structure SendState where
  messages : List ChatMessage
  isStreaming : Bool
  currentAssistantId : Option String
deriving DecidableEq, Repr

structure SendOutcome where
  state : SendState
  sentPayload : Option AcpSendPromptPayload
deriving DecidableEq, Repr

/-- Model of the JavaScript String.prototype.trim call in the sendMessage
guard: removes leading and trailing whitespace characters. -/
def jsTrim (s : String) : String :=
  String.mk (((s.data.dropWhile Char.isWhitespace).reverse.dropWhile
    Char.isWhitespace).reverse)

/-- sendMessage from useAiChat.ts: returns immediately when the trimmed
content is empty or a stream is in flight; otherwise appends a user message
snapshotting context and diagnostics (diagnostics only when non-empty),
appends an empty assistant placeholder and marks it current, sets isStreaming,
assembles the context string when nvim.context is non-null, and calls
acp.sendPrompt([content], contextStr); on a throw it traces, stops streaming,
replaces the placeholder content with the error text and clears the current
target. sentPayload is what reaches the acp_send_prompt backend invoke. -/
def sendMessage (env : SendEnv) (s : SendState) (content : String) : SendOutcome :=
  if jsTrim content = "" ∨ s.isStreaming = true then
    { state := s, sentPayload := none }
  else
    let userMsg : ChatMessage :=
      { id := env.userMsgId, role := .user, content := content, timestamp := env.now,
        context := env.nvimContext,
        diagnostics :=
          if env.nvimDiagnostics.length > 0 then some env.nvimDiagnostics else none }
    let assistantMsg : ChatMessage :=
      { id := env.assistantMsgId, role := .assistant, content := "", timestamp := env.now }
    let s1 : SendState :=
      { messages := s.messages ++ [userMsg, assistantMsg],
        isStreaming := true,
        currentAssistantId := some env.assistantMsgId }
    let contextStr : Option String :=
      match env.nvimContext with
      | some ctx => some (buildContextString ctx env.nvimDiagnostics)
      | none => none
    match sendPromptCall env.sessionId [content] contextStr with
    | Except.ok payload => { state := s1, sentPayload := some payload }
    | Except.error e =>
        { state :=
            { s1 with
                isStreaming := false,
                messages := s1.messages.map (fun m =>
                  if m.id = env.assistantMsgId then { m with content := "**Error:** " ++ e }
                  else m),
                currentAssistantId := none },
          sentPayload := none }

/-! ## Sample values used by counterexamples and witnesses -/

def sampleOption1 : AcpPermissionOption :=
  { optionId := "opt-allow", name := "Allow", kind := "allow_once" }

def sampleReq1 : AcpPermissionRequest :=
  { requestId := "r1", sessionId := "sess", terminalId := none, toolCallId := "tc1",
    title := none, kind := none, options := [sampleOption1] }

def sampleReq2 : AcpPermissionRequest :=
  { requestId := "r2", sessionId := "sess", terminalId := none, toolCallId := "tc2",
    title := none, kind := none, options := [sampleOption1] }

def sampleReq3 : AcpPermissionRequest :=
  { requestId := "r3", sessionId := "sess", terminalId := none, toolCallId := "tc3",
    title := none, kind := none, options := [sampleOption1] }

def sampleContext : NvimContext :=
  { cursor := { line := 10, col := 2 }, filePath := "/tmp/a.ts", fileType := "typescript",
    bufferId := 1, lineCount := 30, modified := false,
    visibleLines := ["const x = 1;", "const y = 2;"], visibleRange := (9, 10) }

def sampleDiagnostic : Diagnostic :=
  { line := 9, col := 0, severity := 1, message := "x is unused", source := "eslint" }

def c2State : AcpState :=
  { status := .running, installState := none, sessionId := some "session-1",
    permissionQueue := [sampleReq1] }

def c9StartingState : AcpState :=
  { status := .starting,
    installState := some { phase := .starting, message := "Starting AI agent..." },
    sessionId := none, permissionQueue := [sampleReq1] }

def c8State : NvimState :=
  { status := .connected, context := some sampleContext, diagnostics := [sampleDiagnostic],
    health := some { connected := true, channelId := some 3, keymapsInjected := true,
                     socketPath := some "/tmp/s.sock", lastError := none },
    keymapStatus := .present, lastError := none }

/-! ## Theorems -/

/-- C2 counterexample: when the underlying acp_stop_agent invoke fails, local
state is NOT reset: from a Running state with an active session and a
non-empty permission queue, stop leaves everything unchanged, contradicting
the claim that status becomes Stopped, the sessionId is cleared and the
permission queue emptied even when the process stop call fails. -/
theorem c2_stop_failure_counterexample :
    stopAgent false c2State = c2State
    ∧ (stopAgent false c2State).status ≠ AgentStatus.stopped
    ∧ (stopAgent false c2State).sessionId ≠ none
    ∧ (stopAgent false c2State).permissionQueue ≠ [] := by
  refine ⟨rfl, ?_, ?_, ?_⟩ <;> decide

/-- C2 (amended): stop resets local state - status Stopped, install state and
sessionId cleared, permission queue emptied - exactly when the underlying
process stop call succeeds; when that call fails, the error is only logged and
local state is left entirely unchanged. -/
theorem c2_stop_reset_on_success_only (s : AcpState) :
    stopAgent true s
      = { status := .stopped, installState := none, sessionId := none,
          permissionQueue := [] }
    ∧ stopAgent false s = s :=
  ⟨rfl, rfl⟩

/-- C9 counterexample: calling startAgent while the status is already Starting
does not fail immediately: the backend start invoke is initiated anyway (a
second concurrent start attempt) and on success the status becomes Running. -/
theorem c9_start_while_starting_counterexample :
    (startAgent none c9StartingState).2 = true
    ∧ (startAgent none c9StartingState).1.status = AgentStatus.running :=
  ⟨rfl, rfl⟩

/-- C9 (amended): startAgent itself performs no status guard - called in any
state, including Starting, it initiates the backend start, clears the
permission queue, and moves to Running on success or Error(message) on
failure; the guard against concurrent starts lives in the caller
ensureAgentSession, which returns early when the status is Starting. -/
theorem c9_start_no_guard (s : AcpState) (e : String) :
    startAgent none s
      = ({ status := .running, installState := none, sessionId := s.sessionId,
           permissionQueue := [] }, true)
    ∧ startAgent (some e) s
      = ({ status := .error e, installState := none, sessionId := s.sessionId,
           permissionQueue := [] }, true)
    ∧ ensureAgentSessionStartsAgent .starting = false :=
  ⟨rfl, rfl, rfl⟩

/-- C8 counterexample: on a transport failure of the health RPC, probeHealth
sets status Error and keymap status error, but does NOT clear the stored
context and diagnostics - they keep their previous non-null values,
contradicting the claim that they are cleared. -/
theorem c8_probe_failure_counterexample :
    (probeHealth true (ProbeOutcome.fail "transport failure") c8State).1.status
        = ConnectionStatus.error
    ∧ (probeHealth true (ProbeOutcome.fail "transport failure") c8State).1.keymapStatus
        = KeymapStatus.error
    ∧ (probeHealth true (ProbeOutcome.fail "transport failure") c8State).1.context
        = some sampleContext
    ∧ (probeHealth true (ProbeOutcome.fail "transport failure") c8State).1.diagnostics
        = [sampleDiagnostic] :=
  ⟨rfl, rfl, rfl, rfl⟩

/-- C8 (amended): whenever probeHealth encounters a transport failure, it sets
the connection state to Error, clears the stored health snapshot, sets the
keymap status to error and records the error message; the stored context and
diagnostics are left unchanged (they are cleared only by a successful probe
reporting connected=false, or by disconnect). -/
theorem c8_probe_transport_failure (s : NvimState) (e : String) :
    (probeHealth true (ProbeOutcome.fail e) s).1.status = ConnectionStatus.error
    ∧ (probeHealth true (ProbeOutcome.fail e) s).1.keymapStatus = KeymapStatus.error
    ∧ (probeHealth true (ProbeOutcome.fail e) s).1.health = none
    ∧ (probeHealth true (ProbeOutcome.fail e) s).1.lastError = some e
    ∧ (probeHealth true (ProbeOutcome.fail e) s).1.context = s.context
    ∧ (probeHealth true (ProbeOutcome.fail e) s).1.diagnostics = s.diagnostics
    ∧ (probeHealth true (ProbeOutcome.fail e) s).2 = none :=
  ⟨rfl, rfl, rfl, rfl, rfl, rfl, rfl⟩

/-- C5: the permission queue is FIFO for enqueue - requests are appended at
the tail, and the head (currentPermission) is unchanged by an enqueue unless
the queue was empty - and respond removes exactly the entry matching the
requestId regardless of its position, preserving the relative order of the
remaining entries; responding with an absent optionId forwards null (a cancel,
no allow option selected) to the backend, which is invoked before the removal. -/
theorem c5_permission_queue (q l1 l2 : List AcpPermissionRequest)
    (req r : AcpPermissionRequest) (opt : Option String)
    (h1 : ∀ x ∈ l1, x.requestId ≠ r.requestId)
    (h2 : ∀ x ∈ l2, x.requestId ≠ r.requestId) :
    enqueuePermission q req = q ++ [req]
    ∧ currentPermission (enqueuePermission q req) = some (q.headD req)
    ∧ respondPermission (l1 ++ r :: l2) r.requestId opt
        = ({ requestId := r.requestId, optionId := opt }, l1 ++ l2)
    ∧ (respondPermission (l1 ++ r :: l2) r.requestId none).1.optionId = none := by
  have hl1 : l1.filter (fun x => !decide (x.requestId = r.requestId)) = l1 :=
    List.filter_eq_self.mpr (fun x hx => by simpa using h1 x hx)
  have hl2 : l2.filter (fun x => !decide (x.requestId = r.requestId)) = l2 :=
    List.filter_eq_self.mpr (fun x hx => by simpa using h2 x hx)
  refine ⟨rfl, ?_, ?_, rfl⟩
  · cases q <;> rfl
  · unfold respondPermission
    refine Prod.ext rfl ?_
    show (l1 ++ r :: l2).filter (fun x => decide (x.requestId ≠ r.requestId)) = l1 ++ l2
    rw [List.filter_append, List.filter_cons]
    simp [hl1, hl2]

/-- Helper: setting the editStatus of the message with a given id commutes
with looking that message up by id. -/
lemma find?_set_editStatus (messages : List ChatMessage) (messageId : String)
    (st : EditStatus) (m : ChatMessage)
    (hfind : messages.find? (fun x => x.id = messageId) = some m) :
    (messages.map (fun x =>
        if x.id = messageId then { x with editStatus := some st } else x)).find?
      (fun x => x.id = messageId) = some { m with editStatus := some st } := by
  have hid : m.id = messageId := by
    have hp := List.find?_some hfind
    simpa using hp
  have hpf : ((fun x : ChatMessage => decide (x.id = messageId)) ∘
      (fun x : ChatMessage =>
        if x.id = messageId then { x with editStatus := some st } else x))
      = (fun x : ChatMessage => decide (x.id = messageId)) := by
    funext x
    by_cases hx : x.id = messageId <;> simp [hx]
  rw [List.find?_map, hpf, hfind]
  simp [hid]

/-- Sample resolved messages for C3. -/
def c3Edit : BufferEdit := { startLine := 4, endLine := 6, newLines := ["a", "b"] }

def c3AppliedMsg : ChatMessage :=
  { id := "m1", role := .assistant, content := "proposal one", timestamp := 5,
    proposedEdits := some [c3Edit], editStatus := some .applied }

def c3RejectedMsg : ChatMessage :=
  { id := "m2", role := .assistant, content := "proposal two", timestamp := 6,
    proposedEdits := some [c3Edit], editStatus := some .rejected }

/-- C3 counterexample: editStatus transitions are not terminal. On a message
already applied, a further rejectProposedEdits call is not a no-op - it
re-marks the message rejected; and on a message already rejected, a further
applyProposedEdits call invokes the edit applier again and re-marks it
applied. -/
theorem c3_resolved_counterexample :
    rejectProposedEdits [c3AppliedMsg] "m1"
      = [{ c3AppliedMsg with editStatus := some EditStatus.rejected }]
    ∧ rejectProposedEdits [c3AppliedMsg] "m1" ≠ [c3AppliedMsg]
    ∧ applyProposedEdits true [c3RejectedMsg] "m2"
      = ([{ c3RejectedMsg with editStatus := some EditStatus.applied }], true)
    ∧ applyProposedEdits true [c3RejectedMsg] "m2" ≠ ([c3RejectedMsg], false) := by
  refine ⟨rfl, by decide, rfl, by decide⟩

/-- C3 (amended): neither applyProposedEdits nor rejectProposedEdits checks
the current editStatus: on any message carrying proposedEdits - including one
already applied or rejected - applyProposedEdits invokes the edit applier and
on success (re)marks it applied (on failure it leaves the transcript
unchanged), and rejectProposedEdits (re)marks it rejected; the
pending-to-applied and pending-to-rejected transitions are not one-way. -/
theorem c3_resolved_retransition (messages : List ChatMessage) (messageId : String)
    (m : ChatMessage) (es : List BufferEdit)
    (hfind : messages.find? (fun x => x.id = messageId) = some m)
    (hpe : m.proposedEdits = some es) :
    (applyProposedEdits true messages messageId).2 = true
    ∧ ((applyProposedEdits true messages messageId).1.find? (fun x => x.id = messageId)
        = some { m with editStatus := some EditStatus.applied })
    ∧ applyProposedEdits false messages messageId = (messages, true)
    ∧ ((rejectProposedEdits messages messageId).find? (fun x => x.id = messageId)
        = some { m with editStatus := some EditStatus.rejected }) := by
  refine ⟨?_, ?_, ?_, ?_⟩
  · simp [applyProposedEdits, hfind, hpe]
  · simp only [applyProposedEdits, hfind, hpe]
    simpa only [hpe] using find?_set_editStatus messages messageId .applied m hfind
  · simp [applyProposedEdits, hfind, hpe]
  · unfold rejectProposedEdits
    exact find?_set_editStatus messages messageId .rejected m hfind

/-- C3 witness: applying to the already applied message m1 re-invokes the
applier, and rejecting re-marks it rejected. -/
theorem c3_resolved_retransition_witness :
    ([c3AppliedMsg].find? (fun x => x.id = "m1") = some c3AppliedMsg)
    ∧ c3AppliedMsg.proposedEdits = some [c3Edit]
    ∧ (applyProposedEdits true [c3AppliedMsg] "m1").2 = true
    ∧ ((rejectProposedEdits [c3AppliedMsg] "m1").find? (fun x => x.id = "m1")
        = some { c3AppliedMsg with editStatus := some EditStatus.rejected }) := by
  have h := c3_resolved_retransition [c3AppliedMsg] "m1" c3AppliedMsg [c3Edit]
    (by decide) (by decide)
  exact ⟨by decide, by decide, h.1, h.2.2.2⟩

/-- Sample messages and state for C4. -/
def c4RejectedAssistant : ChatMessage :=
  { id := "a1", role := .assistant, content := "here is a fix", timestamp := 3,
    proposedEdits := some [c3Edit], editStatus := some .rejected }

def c4State : ChatState :=
  { messages := [c4RejectedAssistant], isStreaming := true, actionTriggered := true,
    currentAssistantId := some "a1", traceStages := [] }

/-- C4 counterexample: with auto-apply enabled and an action-triggered
exchange ending in done, the handler selects the most recent assistant message
with proposedEdits even when its editStatus is rejected - the applier is
invoked once on that already rejected message and it is re-marked applied,
contradicting the claim that an already rejected message is never chosen. -/
theorem c4_auto_apply_rejected_counterexample :
    c4RejectedAssistant.editStatus = some EditStatus.rejected
    ∧ (handleDone true true c4State).2 = 1
    ∧ (handleDone true true c4State).1.messages
        = [{ c4RejectedAssistant with editStatus := some EditStatus.applied }] := by
  refine ⟨rfl, by decide, by decide⟩

/-- C4 (amended): when a done event ends an action-triggered exchange with
auto-apply enabled, the handler locates the most recent assistant message
carrying proposedEdits regardless of its editStatus; whenever that message is
not already applied (pending, unset, or rejected) the edit applier is invoked
exactly once on it - on success the message is marked applied and success is
traced, on failure only the error is traced and the transcript is unchanged;
when that most recent message is already applied, nothing is invoked (earlier
unresolved messages are not considered). -/
theorem c4_auto_apply_most_recent (s : ChatState) (la : ChatMessage) (b : Bool)
    (hTrig : s.actionTriggered = true)
    (hFind : findLastAssistantWithEdits s.messages = some la) :
    (la.editStatus ≠ some EditStatus.applied →
       (handleDone true b s).2 = 1
       ∧ (handleDone true true s).1.messages
           = s.messages.map (fun m =>
               if m.id = la.id then { m with editStatus := some EditStatus.applied }
               else m)
       ∧ (handleDone true true s).1.traceStages
           = s.traceStages ++ ["agent.done", "edits.autoApply.success"]
       ∧ (handleDone true false s).1.messages = s.messages
       ∧ (handleDone true false s).1.traceStages
           = s.traceStages ++ ["agent.done", "edits.autoApply.error"])
    ∧ (la.editStatus = some EditStatus.applied →
       (handleDone true b s).2 = 0
       ∧ (handleDone true b s).1.messages = s.messages) := by
  have hpe : la.proposedEdits.isSome = true := by
    have hp := List.find?_some hFind
    simp only [Bool.and_eq_true, decide_eq_true_eq] at hp
    exact hp.2
  constructor
  · intro hne
    have hcond : la.proposedEdits.isSome = true
        ∧ la.editStatus ≠ some EditStatus.applied := ⟨hpe, hne⟩
    refine ⟨?_, ?_, ?_, ?_, ?_⟩
    · cases b <;> simp [handleDone, hTrig, hFind, hcond, hne, hpe]
    · simp [handleDone, hTrig, hFind, hcond, hne, hpe]
    · simp [handleDone, hTrig, hFind, hcond, hne, hpe]
    · simp [handleDone, hTrig, hFind, hcond, hne, hpe]
    · simp [handleDone, hTrig, hFind, hcond, hne, hpe]
  · intro happ
    have hcond : ¬ (la.proposedEdits.isSome = true
        ∧ la.editStatus ≠ some EditStatus.applied) := by
      intro hc
      exact hc.2 happ
    constructor <;> simp [handleDone, hTrig, hFind, hcond, happ]

/-- Sample pending message and state for the C4 witness. -/
def c4wPendingAssistant : ChatMessage :=
  { id := "a2", role := .assistant, content := "patch", timestamp := 4,
    proposedEdits := some [c3Edit], editStatus := some .pending }

def c4wState : ChatState :=
  { messages := [c4wPendingAssistant], isStreaming := true, actionTriggered := true,
    currentAssistantId := none, traceStages := [] }

/-- C4 witness (Scenario D shape): a pending assistant message with
proposedEdits is applied exactly once and marked applied on success. -/
theorem c4_auto_apply_most_recent_witness :
    c4wState.actionTriggered = true
    ∧ findLastAssistantWithEdits c4wState.messages = some c4wPendingAssistant
    ∧ (handleDone true true c4wState).2 = 1
    ∧ (handleDone true true c4wState).1.messages
        = c4wState.messages.map (fun m =>
            if m.id = c4wPendingAssistant.id
            then { m with editStatus := some EditStatus.applied } else m) := by
  have h := (c4_auto_apply_most_recent c4wState c4wPendingAssistant true rfl
    (by decide)).1 (by decide)
  exact ⟨rfl, by decide, h.1, h.2.1⟩

/-- C5 witness (Scenario E): responding to r1 with an undefined optionId on
the queue [r1, r2, r3] forwards a null optionId (cancel) and leaves [r2, r3]. -/
theorem c5_permission_queue_witness :
    (∀ x ∈ ([] : List AcpPermissionRequest), x.requestId ≠ sampleReq1.requestId)
    ∧ (∀ x ∈ [sampleReq2, sampleReq3], x.requestId ≠ sampleReq1.requestId)
    ∧ (enqueuePermission [] sampleReq1 = [] ++ [sampleReq1]
       ∧ currentPermission (enqueuePermission [] sampleReq1)
           = some (([] : List AcpPermissionRequest).headD sampleReq1)
       ∧ respondPermission ([] ++ sampleReq1 :: [sampleReq2, sampleReq3])
             sampleReq1.requestId none
           = ({ requestId := sampleReq1.requestId, optionId := none },
              [] ++ [sampleReq2, sampleReq3])
       ∧ (respondPermission ([] ++ sampleReq1 :: [sampleReq2, sampleReq3])
             sampleReq1.requestId none).1.optionId = none) :=
  ⟨by decide, by decide,
   c5_permission_queue [] [] [sampleReq2, sampleReq3] sampleReq1 sampleReq1 none
     (by decide) (by decide)⟩

def c10Env : SendEnv :=
  { nvimContext := some sampleContext, nvimDiagnostics := [sampleDiagnostic],
    sessionId := some "sess-1", userMsgId := "u1", assistantMsgId := "a9", now := 100 }

def c10SendState : SendState :=
  { messages := [], isStreaming := false, currentAssistantId := none }

/-- C10: when the whitespace-trimmed content is empty, sendMessage is a
no-op - the transcript gains no messages, isStreaming is unchanged, and no
prompt payload is submitted to the agent. -/
theorem c10_blank_send_noop (env : SendEnv) (s : SendState) (content : String)
    (h : jsTrim content = "") :
    (sendMessage env s content).state.messages = s.messages
    ∧ (sendMessage env s content).state.isStreaming = s.isStreaming
    ∧ (sendMessage env s content).sentPayload = none := by
  have heq : sendMessage env s content = { state := s, sentPayload := none } := by
    unfold sendMessage
    rw [if_pos (Or.inl h)]
  rw [heq]
  exact ⟨rfl, rfl, rfl⟩

/-- C10 witness: sending a whitespace-only string changes nothing and submits
nothing. -/
theorem c10_blank_send_noop_witness :
    (jsTrim "   " = "")
    ∧ ((sendMessage c10Env c10SendState "   ").state.messages = c10SendState.messages
       ∧ (sendMessage c10Env c10SendState "   ").state.isStreaming
           = c10SendState.isStreaming
       ∧ (sendMessage c10Env c10SendState "   ").sentPayload = none) :=
  ⟨by decide, c10_blank_send_noop c10Env c10SendState "   " (by decide)⟩

/-- C1: the context string never reaches the agent. For any submission with a
non-null editor context, an active session and non-blank content, the payload
handed to the acp_send_prompt backend is exactly the sessionId plus the prompt
blocks - the assembled context string is dropped at the
acp.sendPrompt([content], contextStr) call boundary because sendPrompt
declares only a blocks parameter, and the payload type has no context field at
all. This contradicts the claim (and the spec signature
sendPrompt(content, contextString?)), while the call site plainly intends to
pass the context string: the code, not the claim, is at fault. -/
theorem c1_context_string_dropped (env : SendEnv) (s : SendState) (content : String)
    (ctx : NvimContext) (sid : String)
    (_hctx : env.nvimContext = some ctx)
    (hsid : env.sessionId = some sid)
    (hc : ¬ jsTrim content = "")
    (hs : s.isStreaming = false) :
    (sendMessage env s content).sentPayload
      = some { sessionId := sid, blocks := [content] }
    ∧ ∀ ctx2 : NvimContext,
        (sendMessage { env with nvimContext := some ctx2 } s content).sentPayload
          = (sendMessage env s content).sentPayload := by
  have hcond : ¬ (jsTrim content = "" ∨ s.isStreaming = true) := by
    intro hor
    rcases hor with h1 | h2
    · exact hc h1
    · rw [hs] at h2
      exact Bool.false_ne_true h2
  constructor
  · unfold sendMessage
    rw [if_neg hcond]
    simp [sendPromptCall, sendPrompt, hsid]
  · intro ctx2
    unfold sendMessage
    rw [if_neg hcond, if_neg hcond]
    simp [sendPromptCall, sendPrompt, hsid]

def c1SendState : SendState :=
  { messages := [], isStreaming := false, currentAssistantId := none }

/-- C1 witness: a concrete submission with a non-null context and an active
session delivers only the sessionId and the prompt block. -/
theorem c1_context_string_dropped_witness :
    c10Env.nvimContext = some sampleContext
    ∧ c10Env.sessionId = some "sess-1"
    ∧ ¬ jsTrim "fix this" = ""
    ∧ c1SendState.isStreaming = false
    ∧ (sendMessage c10Env c1SendState "fix this").sentPayload
        = some { sessionId := "sess-1", blocks := ["fix this"] } :=
  ⟨rfl, rfl, by decide, rfl,
   (c1_context_string_dropped c10Env c1SendState "fix this" sampleContext "sess-1"
     rfl rfl (by decide) rfl).1⟩

/-! ## Connect retry loop with attempt tokens (AiChat.tsx, src/unnamed/part_006) -/

/-- Poll interval constant from AiChat.tsx. -/
def NVIM_CONNECT_POLL_MS : Nat := 250

/-- Wall-clock timeout constant from AiChat.tsx. -/
def NVIM_CONNECT_TIMEOUT_MS : Nat := 8000

/-- startNvim issues a fresh attempt token: it stores
startAttemptRef.current + 1 as this attempt, so tokens strictly increase. -/
def issueAttemptToken (current : Nat) : Nat := current + 1

/-- One loop iteration of waitForNvimConnection as observed at run time: the
value of startAttemptRef.current sampled at the loop-head token guard, the
wall-clock duration of the await nvim.connect call, its outcome (none for
success, some reason for a throw), and the value of startAttemptRef.current
at the moment that await resolves - the ref can be bumped by a terminal
switch while the connect is in flight. -/
structure ConnectStep where
  tokenAtCheck : Nat
  dur : Nat
  result : Option String
  tokenAtResolve : Nat
deriving DecidableEq, Repr

/-- The shared-state mutations the loop performs: a connectCall records an
invocation of nvim.connect (which itself mutates ConnectionState inside
useNvimBridge), tagged with the token under which it was issued; a
successMessage records the appendSystemMessage(successMessage) call made
after a successful connect, tagged with the global token value at that moment
(the source performs no token re-check between the await and this append). -/
inductive EstablishEvent
  | connectCall (token : Nat)
  | successMessage (tokenAtResolve : Nat)
deriving DecidableEq, Repr

inductive EstablishResult
  | connected
  | stale
  | failed (reason : String)
deriving DecidableEq, Repr

/-- The post-loop throw in waitForNvimConnection:
Error(lastError ? String(lastError) : "Timed out waiting for Neovim to be ready"). -/
def timeoutReason (lastError : Option String) : String :=
  lastError.getD "Timed out waiting for Neovim to be ready"

/-- The while loop of waitForNvimConnection in AiChat.tsx, as a function of
the iteration trace. Each iteration first re-checks Date.now() < deadline,
then returns silently (stale, no error, no mutation) when
startAttemptRef.current no longer equals this attempt token, then awaits one
nvim.connect: on success it appends the success message and returns; on a
throw it records lastError and sleeps NVIM_CONNECT_POLL_MS before the next
iteration, so the clock advances by the connect duration plus the poll
interval. An exhausted step list models the loop ending at the deadline:
the function throws with the last failure reason. Returns the result and the
ordered list of shared-state mutations performed. -/
def waitLoop (attemptId deadline : Nat) (lastError : Option String) (now : Nat) :
    List ConnectStep → EstablishResult × List EstablishEvent
  | [] => (.failed (timeoutReason lastError), [])
  | step :: rest =>
    if deadline ≤ now then (.failed (timeoutReason lastError), [])
    else if step.tokenAtCheck ≠ attemptId then (.stale, [])
    else
      match step.result with
      | none =>
          (.connected,
           [.connectCall step.tokenAtCheck, .successMessage step.tokenAtResolve])
      | some e =>
          let r := waitLoop attemptId deadline (some e)
            (now + step.dur + NVIM_CONNECT_POLL_MS) rest
          (r.1, .connectCall step.tokenAtCheck :: r.2)

/-- waitForNvimConnection entry from AiChat.tsx: the deadline is
Date.now() + NVIM_CONNECT_TIMEOUT_MS at entry, lastError starts null. -/
def waitForNvimConnection (attemptId now : Nat) (steps : List ConnectStep) :
    EstablishResult × List EstablishEvent :=
  waitLoop attemptId (now + NVIM_CONNECT_TIMEOUT_MS) none now steps

/-- Spec-side description of establish written from the claim, for the C7
refinement check: one connect call per iteration within the deadline; a
success returns success; a failure is remembered as the last failure and
retried after a fixed 250 ms poll; once the 8-second deadline has elapsed the
call fails carrying the reason of the last failure (or a generic timeout
message when no connect ever ran). The second component counts connect calls. -/
def establishSpec (deadline : Nat) :
    Nat → Option String → List (Nat × Option String) → EstablishResult × Nat
  | _now, lastFailure, [] =>
      (.failed (timeoutReason lastFailure), 0)
  | now, lastFailure, (dur, res) :: rest =>
      if now < deadline then
        match res with
        | none => (.connected, 1)
        | some e =>
            let r := establishSpec deadline (now + dur + 250) (some e) rest
            (r.1, r.2 + 1)
      else (.failed (timeoutReason lastFailure), 0)

/-- Number of nvim.connect invocations among the recorded mutations. -/
def countConnectCalls (events : List EstablishEvent) : Nat :=
  events.countP (fun ev =>
    match ev with
    | .connectCall _ => true
    | _ => false)

/-- Helper for C7: under a steady attempt token the loop coincides with the
spec-side description, both in result and in number of connect calls. -/
lemma waitLoop_eq_establishSpec (attemptId deadline : Nat) (steps : List ConnectStep) :
    ∀ now lastError, (∀ s ∈ steps, s.tokenAtCheck = attemptId) →
    (waitLoop attemptId deadline lastError now steps).1
        = (establishSpec deadline now lastError
            (steps.map (fun s => (s.dur, s.result)))).1
    ∧ countConnectCalls (waitLoop attemptId deadline lastError now steps).2
        = (establishSpec deadline now lastError
            (steps.map (fun s => (s.dur, s.result)))).2 := by
  induction steps with
  | nil =>
    intro now lastError _
    exact ⟨rfl, rfl⟩
  | cons step rest ih =>
    intro now lastError hTok
    have hstep : step.tokenAtCheck = attemptId := hTok step (by simp)
    have hrest : ∀ s ∈ rest, s.tokenAtCheck = attemptId := fun s hs =>
      hTok s (by simp [hs])
    by_cases hd : deadline ≤ now
    · simp [waitLoop, establishSpec, hd, not_lt.mpr hd, countConnectCalls]
    · have hlt : now < deadline := not_le.mp hd
      cases hres : step.result with
      | none =>
        simp [waitLoop, establishSpec, hd, hlt, hstep, hres, countConnectCalls]
      | some e =>
        have hih := ih (now + step.dur + NVIM_CONNECT_POLL_MS) (some e) hrest
        simp only [NVIM_CONNECT_POLL_MS, countConnectCalls] at hih
        simp [waitLoop, establishSpec, hd, hlt, hstep, hres, countConnectCalls,
          NVIM_CONNECT_POLL_MS, hih.1, hih.2]

/-- C7: under a steady attempt token, the establish loop retries one connect
per iteration at the fixed 250 ms poll interval until a connect succeeds or
the 8-second wall-clock deadline elapses, in which case it fails carrying the
reason of the last failure; the constants are 250 ms and 8000 ms, and the
loop behaves exactly as the spec-side description of this policy, with one
connect call per executed iteration. -/
theorem c7_establish_retry (attemptId now : Nat) (steps : List ConnectStep)
    (hTok : ∀ s ∈ steps, s.tokenAtCheck = attemptId) :
    NVIM_CONNECT_POLL_MS = 250
    ∧ NVIM_CONNECT_TIMEOUT_MS = 8000
    ∧ (waitForNvimConnection attemptId now steps).1
        = (establishSpec (now + NVIM_CONNECT_TIMEOUT_MS) now none
            (steps.map (fun s => (s.dur, s.result)))).1
    ∧ countConnectCalls (waitForNvimConnection attemptId now steps).2
        = (establishSpec (now + NVIM_CONNECT_TIMEOUT_MS) now none
            (steps.map (fun s => (s.dur, s.result)))).2 := by
  have h := waitLoop_eq_establishSpec attemptId (now + NVIM_CONNECT_TIMEOUT_MS)
    steps now none hTok
  exact ⟨rfl, rfl, h.1, h.2⟩

def c7wSteps : List ConnectStep :=
  [{ tokenAtCheck := 1, dur := 100, result := some "ECONNREFUSED", tokenAtResolve := 1 },
   { tokenAtCheck := 1, dur := 40, result := none, tokenAtResolve := 1 }]

/-- C7 witness: one failed connect followed by a successful one under a
steady token: the loop result and connect-call count match the spec-side
description. -/
theorem c7_establish_retry_witness :
    (∀ s ∈ c7wSteps, s.tokenAtCheck = 1)
    ∧ (NVIM_CONNECT_POLL_MS = 250
       ∧ NVIM_CONNECT_TIMEOUT_MS = 8000
       ∧ (waitForNvimConnection 1 0 c7wSteps).1
           = (establishSpec (0 + NVIM_CONNECT_TIMEOUT_MS) 0 none
               (c7wSteps.map (fun s => (s.dur, s.result)))).1
       ∧ countConnectCalls (waitForNvimConnection 1 0 c7wSteps).2
           = (establishSpec (0 + NVIM_CONNECT_TIMEOUT_MS) 0 none
               (c7wSteps.map (fun s => (s.dur, s.result)))).2) :=
  ⟨by decide, c7_establish_retry 1 0 c7wSteps (by decide)⟩

def c6Step : ConnectStep :=
  { tokenAtCheck := 1, dur := 10, result := none, tokenAtResolve := 2 }

/-- C6 counterexample: an attempt superseded while its connect is in flight is
not discarded. Here attempt 1 passes the loop-head token check, but while the
connect is awaited the global token moves to 2 (a newer establish attempt was
issued), so attempt 1 no longer holds the highest token when its result
arrives; the source performs no re-check on the success path, so the success
mutation (the appended success message, after the connect already mutated
ConnectionState) still lands and the loop reports connected instead of
discarding the stale result. -/
theorem c6_stale_mid_connect_counterexample :
    (waitForNvimConnection 1 0 [c6Step]).1 = EstablishResult.connected
    ∧ (waitForNvimConnection 1 0 [c6Step]).2
        = [EstablishEvent.connectCall 1, EstablishEvent.successMessage 2]
    ∧ c6Step.tokenAtResolve ≠ 1 := by
  refine ⟨by decide, by decide, by decide⟩

/-- C6 (amended): attempt tokens strictly increase, and stale results are
discarded at the explicit checkpoints: every nvim.connect call is issued
under the attempt token (a loop-head mismatch prevents any further call), a
mismatch observed at a loop head aborts silently - stale result, no error, no
mutation - and a stale return never carries a success-message mutation. A
supersession that occurs while a connect is in flight, however, is not
detected on the success path (see the counterexample). -/
theorem c6_token_checkpoints (attemptId deadline now : Nat) (lastError : Option String)
    (steps : List ConnectStep) (step : ConnectStep) (rest : List ConnectStep) :
    (∀ t, EstablishEvent.connectCall t ∈ (waitLoop attemptId deadline lastError now steps).2
       → t = attemptId)
    ∧ ((waitLoop attemptId deadline lastError now steps).1 = EstablishResult.stale
       → ∀ t, EstablishEvent.successMessage t
           ∉ (waitLoop attemptId deadline lastError now steps).2)
    ∧ (step.tokenAtCheck ≠ attemptId → now < deadline →
       waitLoop attemptId deadline lastError now (step :: rest) = (.stale, []))
    ∧ (∀ n, n < issueAttemptToken n) := by
  refine ⟨?_, ?_, ?_, ?_⟩
  · induction steps generalizing now lastError with
    | nil => intro t ht; simp [waitLoop] at ht
    | cons s rest2 ih =>
      intro t ht
      by_cases hd : deadline ≤ now
      · simp [waitLoop, hd] at ht
      · by_cases hs : s.tokenAtCheck = attemptId
        · cases hres : s.result with
          | none =>
            simp [waitLoop, hd, hs, hres] at ht
            exact ht
          | some e =>
            simp [waitLoop, hd, hs, hres] at ht
            rcases ht with h1 | h2
            · exact h1
            · exact ih _ _ t h2
        · simp [waitLoop, hd, hs] at ht
  · induction steps generalizing now lastError with
    | nil => intro hst; simp [waitLoop] at hst
    | cons s rest2 ih =>
      intro hst t ht
      by_cases hd : deadline ≤ now
      · simp [waitLoop, hd] at hst
      · by_cases hs : s.tokenAtCheck = attemptId
        · cases hres : s.result with
          | none => simp [waitLoop, hd, hs, hres] at hst
          | some e =>
            simp [waitLoop, hd, hs, hres] at hst ht
            exact ih _ _ hst t ht
        · simp [waitLoop, hd, hs] at ht
  · intro h1 h2
    simp [waitLoop, not_le.mpr h2, h1]
  · intro n
    exact Nat.lt_succ_self n

def c6wStaleStep : ConnectStep :=
  { tokenAtCheck := 2, dur := 5, result := none, tokenAtResolve := 2 }

/-- C6 witness: a loop-head token mismatch (global token already 2, attempt
token 1) aborts silently with no mutation. -/
theorem c6_token_checkpoints_witness :
    c6wStaleStep.tokenAtCheck ≠ 1
    ∧ (0 : Nat) < 8000
    ∧ waitLoop 1 8000 none 0 [c6wStaleStep] = (EstablishResult.stale, []) := by
  have h := (c6_token_checkpoints 1 8000 0 none [] c6wStaleStep []).2.2.1
    (by decide) (by decide)
  exact ⟨by decide, by decide, h⟩

end NeoAI
